import Mathlib

/-!
Shallow embedding of the multi-tenant feedback ingestion and insights core of
the embedded feedback collector backend.

The embedded code:
- src/src/lib/api-utils.ts  (getProjectByApiKey, getDefaultProject)
- src/src/app/api/feedback/route.ts  (POST handler: validation, tenant
  resolution, persistence)
- src/src/app/api/business-insights/route.ts  (GET handler: scoped aggregates)
- src/src/app/api/projects/[id]/route.ts  (PUT handler: project update and
  API-key regeneration)

Modelling conventions:
- The document store (Prisma over MongoDB) is a `DB` value: a list of
  principal ids (`users`), `Project` rows and `Feedback` rows.  Queries are
  list operations; `findUnique` / `findFirst` become `List.find?`.
- Storage calls that may throw are modelled by a `Faults` record saying which
  of the three storage interactions of one ingestion request throws; the
  source try/catch structure is translated verbatim (getProjectByApiKey
  catches and returns null, getDefaultProject rethrows, the POST handler
  catches everything and answers with a generic 500).
- Randomly generated ids and API keys are passed in as a `Fresh` record.
- JavaScript numbers are idealised as exact rationals; Math.round is
  round-half-toward-positive-infinity and Number.EPSILON is 2 ^ (-52).
- The fire-and-forget email notification does not touch the store and never
  changes the response, so it has no observable effect in this state model.
-/

namespace FeedbackCore

/-- A tenant: one row of the `Project` collection.  Timestamps are omitted
because no embedded operation reads them. -/
structure Project where
  id : Nat
  name : String
  domain : String
  apiKey : String
  description : Option String
  isActive : Bool
  userId : Nat
deriving DecidableEq, Repr

/-- One user submission: a row of the `Feedback` collection.  `createdAt` is
the creation time in milliseconds; `projectId` is a nullable reference. -/
structure Feedback where
  id : Nat
  name : Option String
  email : Option String
  message : String
  rating : Option Int
  metadata : Option String
  projectId : Option Nat
  createdAt : Int
deriving DecidableEq, Repr

/-- The persistent state: principal ids plus the two primary collections. -/
structure DB where
  users : List Nat
  projects : List Project
  feedbacks : List Feedback
deriving DecidableEq, Repr

/-- Which storage calls of one ingestion request throw.  This models the
"storage layer raises an error" situations of the error-handling design. -/
structure Faults where
  apiKeyLookup : Bool
  defaultProject : Bool
  feedbackCreate : Bool
deriving DecidableEq, Repr

/-- The normal situation: no storage call throws. -/
def noFaults : Faults := ⟨false, false, false⟩

/-- Fresh identifiers and the freshly generated random API key used when the
request creates rows (randomBytes(16).toString("hex") is treated as an
opaque input). -/
structure Fresh where
  feedbackId : Nat
  projectId : Nat
  apiKey : String
deriving DecidableEq, Repr

/-- JSON body plus the optional X-API-Key header of a POST /api/feedback
request.  `message := none` models an absent (or null) field and
`some ""` an empty string; both are falsy in the source check. -/
structure PostRequest where
  name : Option String
  email : Option String
  message : Option String
  rating : Option Int
  metadata : Option String
  apiKey : Option String
deriving DecidableEq, Repr

/-- JS falsiness of the `message` field: absent, null or the empty string
(the source tests `if (!message)`). -/
def falsyMessage : Option String → Bool
  | none => true
  | some s => s == ""

/-- getProjectByApiKey of src/src/lib/api-utils.ts: reads the X-API-Key
header and looks the project up by exact key equality.  Returns none when no
key is supplied, when no project matches, or when the lookup throws — the
source catches the error and returns null. -/
def getProjectByApiKey (faults : Faults) (apiKey : Option String) (db : DB) :
    Option Project :=
  match apiKey with
  | none => none
  | some k =>
    if faults.apiKeyLookup then none
    else db.projects.find? (fun p => p.apiKey == k)

/-- Failure modes of getDefaultProject: a storage error (rethrown by the
source) or the cold-start "No users found" error. -/
inductive DefaultProjectError where
  | storage
  | noPrincipal
deriving DecidableEq, Repr

/-- getDefaultProject of src/src/lib/api-utils.ts: finds the project named
"Default Project"; if absent, creates one owned by the first principal with a
fresh random API key, and throws when zero principals exist.  Returns the
default project id together with the possibly extended store. -/
def getDefaultProject (faults : Faults) (fresh : Fresh) (db : DB) :
    Except DefaultProjectError (Nat × DB) :=
  if faults.defaultProject then .error .storage
  else
    match db.projects.find? (fun p => p.name == "Default Project") with
    | some p => .ok (p.id, db)
    | none =>
      match db.users.head? with
      | none => .error .noPrincipal
      | some u =>
        let newProject : Project :=
          { id := fresh.projectId
            userId := u
            name := "Default Project"
            domain := "https://localhost:3000"
            apiKey := fresh.apiKey
            description := some "Default project for existing feedback entries"
            isActive := true }
        .ok (fresh.projectId, { db with projects := db.projects ++ [newProject] })

/-- Outcome of the POST /api/feedback handler: 201 with the created row,
400 validation error, 403 inactive project, or a generic 500. -/
inductive PostResult where
  | created (f : Feedback)
  | validationError
  | inactiveProject
  | serverError
deriving DecidableEq, Repr

/-- Whether the handler answered 201 with a created feedback row. -/
def PostResult.isCreated : PostResult → Bool
  | .created _ => true
  | _ => false

/-- The project reference of the created row, when one was created. -/
def PostResult.boundProject : PostResult → Option (Option Nat)
  | .created f => some f.projectId
  | _ => none

/-- prisma.feedback.create of the POST handler: builds the row (metadata is
stored as `metadata || null`, so an empty string becomes null) and appends it
to the store; a storage error here is caught by the handler as a 500. -/
def createFeedback (faults : Faults) (fresh : Fresh) (now : Int)
    (req : PostRequest) (pid : Option Nat) (db : DB) : PostResult × DB :=
  if faults.feedbackCreate then (.serverError, db)
  else
    let f : Feedback :=
      { id := fresh.feedbackId
        name := req.name
        email := req.email
        message := req.message.getD ""
        rating := req.rating
        metadata := match req.metadata with | some "" => none | m => m
        projectId := pid
        createdAt := now }
    (.created f, { db with feedbacks := db.feedbacks ++ [f] })

/-- The POST handler of src/src/app/api/feedback/route.ts: validate the
message, resolve the tenant from the API key (falling back to the default
project when none resolves), reject inactive projects, persist the row.  The
email notification is fire-and-forget and does not affect result or state. -/
def feedbackPOST (faults : Faults) (fresh : Fresh) (now : Int)
    (req : PostRequest) (db : DB) : PostResult × DB :=
  if falsyMessage req.message then (.validationError, db)
  else
    match getProjectByApiKey faults req.apiKey db with
    | some p =>
      if !p.isActive then (.inactiveProject, db)
      else createFeedback faults fresh now req (some p.id) db
    | none =>
      match getDefaultProject faults fresh db with
      | .error _ => (.serverError, db)
      | .ok (pid, db1) => createFeedback faults fresh now req (some pid) db1

/-- The project-id set of the authenticated principal: ids of projects whose
owner equals the principal (the userProjectIds computation shared by the
feedback GET and business-insights GET handlers). -/
def userProjectIds (uid : Nat) (projects : List Project) : List Nat :=
  (projects.filter (fun p => p.userId == uid)).map (fun p => p.id)

/-- The `where` filter of the scoped feedback queries: when a projectId
filter is given, exact match on it; otherwise membership of the row's
projectId in the principal's project-id set (a null projectId matches
neither). -/
def inScope (uid : Nat) (flt : Option Nat) (projects : List Project)
    (f : Feedback) : Bool :=
  match flt with
  | some pid => f.projectId == some pid
  | none =>
    match f.projectId with
    | some q => (userProjectIds uid projects).contains q
    | none => false

/-- The feedback rows every aggregate query of the insights handler ranges
over. -/
def scopedFeedbacks (uid : Nat) (flt : Option Nat) (db : DB) : List Feedback :=
  db.feedbacks.filter (inScope uid flt db.projects)

/-- Number.EPSILON, idealised as an exact rational. -/
def numberEPSILON : ℚ := 1 / 2 ^ 52

/-- Math.round: round half toward positive infinity. -/
def mathRound (x : ℚ) : ℤ := ⌊x + 1 / 2⌋

/-- The averageRating output of the insights handler: the aggregate `_avg`
over non-null ratings (null coalesced to 0 by `|| 0`), then
Math.round((avg + Number.EPSILON) * 100) / 100. -/
def averageRatingOut (ratings : List Int) : ℚ :=
  let avg : ℚ := if ratings.length = 0 then 0 else (ratings.sum : ℚ) / ratings.length
  (mathRound ((avg + numberEPSILON) * 100) : ℚ) / 100

/-- One entry of ratingDistribution. -/
structure RatingBucket where
  rating : Int
  count : Nat
deriving DecidableEq, Repr

/-- One entry of feedbackByProject. -/
structure ProjectBucket where
  projectId : Option Nat
  projectName : String
  count : Nat
deriving DecidableEq, Repr

/-- The insights response document. -/
structure InsightsReport where
  totalFeedback : Nat
  averageRating : ℚ
  ratedFeedbackCount : Nat
  ratingDistribution : List RatingBucket
  feedbackByProject : List ProjectBucket
  recent7Days : Nat
  recent30Days : Nat
  totalProjects : Nat
deriving DecidableEq, Repr

/-- Name resolution of the per-project buckets: look the project up by id
(null gives the synthetic "No Project" bucket, a dangling id gives
"Unknown Project"). -/
def projectNameOf (projects : List Project) : Option Nat → String
  | some q =>
    match projects.find? (fun p => p.id == q) with
    | some p => p.name
    | none => "Unknown Project"
  | none => "No Project"

/-- The aggregate computations of the business-insights GET handler, as a
function of the scoped feedback rows and the project collection.  Every
count mirrors one prisma query over the same `where` filter. -/
def mkReport (uid : Nat) (flt : Option Nat) (now : Int)
    (projects : List Project) (rows : List Feedback) : InsightsReport :=
  let totalFeedback := rows.length
  let rated : List Int := rows.filterMap (fun f => f.rating)
  { totalFeedback := totalFeedback
    averageRating := averageRatingOut rated
    ratedFeedbackCount := rated.length
    ratingDistribution :=
      [1, 2, 3, 4, 5].map (fun r =>
        { rating := r, count := rows.countP (fun f => f.rating == some r) })
    feedbackByProject :=
      match flt with
      | none =>
        ((rows.map (fun f => f.projectId)).dedup).map (fun k =>
          { projectId := k
            projectName := projectNameOf projects k
            count := rows.countP (fun f => f.projectId == k) })
      | some pid =>
        [{ projectId := some pid
           projectName := projectNameOf projects (some pid)
           count := totalFeedback }]
    recent7Days :=
      rows.countP (fun f => decide (now - 7 * 24 * 60 * 60 * 1000 ≤ f.createdAt))
    recent30Days :=
      rows.countP (fun f => decide (now - 30 * 24 * 60 * 60 * 1000 ≤ f.createdAt))
    totalProjects :=
      match flt with
      | some _ => 1
      | none => (projects.filter (fun p => p.userId == uid && p.isActive)).length }

/-- The insights report for principal `uid`, optionally filtered to one
project id, at wall-clock time `now`. -/
def computeInsights (uid : Nat) (flt : Option Nat) (now : Int) (db : DB) :
    InsightsReport :=
  mkReport uid flt now db.projects (scopedFeedbacks uid flt db)

/-- Outcome of the business-insights GET handler. -/
inductive InsightsResult where
  | ok (r : InsightsReport)
  | unauthorized
  | notFound
  | forbidden
deriving DecidableEq, Repr

/-- The GET handler of src/src/app/api/business-insights/route.ts: session
check, ownership check of the optional projectId filter, then the scoped
aggregation. -/
def businessInsightsGET (uid? : Option Nat) (flt : Option Nat) (now : Int)
    (db : DB) : InsightsResult :=
  match uid? with
  | none => .unauthorized
  | some uid =>
    match flt with
    | none => .ok (computeInsights uid none now db)
    | some pid =>
      match db.projects.find? (fun p => p.id == pid) with
      | none => .notFound
      | some p =>
        if p.userId != uid then .forbidden
        else .ok (computeInsights uid (some pid) now db)

/-- JSON body of a PUT /api/projects/[id] request.  The outer Option of
`description` distinguishes an absent field from an explicit null. -/
structure PutBody where
  name : Option String
  domain : Option String
  description : Option (Option String)
  isActive : Option Bool
  regenerateApiKey : Option Bool
deriving DecidableEq, Repr

/-- Outcome of the PUT handler (the 200 payload is the updated project; the
joined feedback count is presentational and omitted). -/
inductive PutResult where
  | ok (p : Project)
  | unauthorized
  | notFound
  | forbidden
deriving DecidableEq, Repr

/-- The updateData object applied to a project row: only provided fields
change; apiKey is set to the fresh key exactly when regenerateApiKey is
literally true. -/
def applyUpdate (body : PutBody) (freshKey : String) (p : Project) : Project :=
  { p with
    name := match body.name with | some s => s.trim | none => p.name
    domain := match body.domain with | some s => s.trim | none => p.domain
    description :=
      match body.description with
      | some (some s) => if s.trim == "" then none else some s.trim
      | some none => none
      | none => p.description
    isActive := body.isActive.getD p.isActive
    apiKey := if body.regenerateApiKey == some true then freshKey else p.apiKey }

/-- Whether updateData stays empty, in which case the handler returns the
existing project without writing. -/
def emptyUpdate (body : PutBody) : Bool :=
  body.name == none && body.domain == none && body.description == none &&
    body.isActive == none && !(body.regenerateApiKey == some true)

/-- The PUT handler of src/src/app/api/projects/[id]/route.ts: session
check, existence and ownership checks, then the field update (the write goes
to the row with the requested id). -/
def projectPUT (uid? : Option Nat) (id : Nat) (body : PutBody)
    (freshKey : String) (db : DB) : PutResult × DB :=
  match uid? with
  | none => (.unauthorized, db)
  | some uid =>
    match db.projects.find? (fun p => p.id == id) with
    | none => (.notFound, db)
    | some p0 =>
      if p0.userId != uid then (.forbidden, db)
      else if emptyUpdate body then (.ok p0, db)
      else
        let db1 : DB :=
          { db with projects :=
              db.projects.map (fun p =>
                if p.id == id then applyUpdate body freshKey p else p) }
        (.ok (applyUpdate body freshKey p0), db1)

/-- Whether a stored rating value lies in the documented domain 1..5 (used to
state what the distribution buckets actually cover). -/
def ratingInRange (o : Option Int) : Bool :=
  match o with
  | some v => decide (1 ≤ v) && decide (v ≤ 5)
  | none => false

/-- The arithmetic mean of a list of ratings, 0 when the list is empty (the
specification-side description of averageRating before rounding). -/
def meanOf (l : List Int) : ℚ :=
  if l.length = 0 then 0 else (l.sum : ℚ) / l.length

/-- An inactive project whose API key is "inactive-key". -/
def c2proj : Project := ⟨1, "Proj", "https://x", "inactive-key", none, false, 0⟩

/-- A store holding one principal and the inactive project. -/
def c2db : DB := ⟨[0], [c2proj], []⟩

/-- A store with an active keyed project and an active default project. -/
def c8db : DB :=
  ⟨[0], [⟨1, "Prod", "https://p", "live-key", none, true, 0⟩,
         ⟨2, "Default Project", "https://localhost:3000", "dk", none, true, 0⟩], []⟩

/-- Projects of two different principals (ids 0 and 1). -/
def c1p1 : Project := ⟨1, "Mine", "https://a", "k1", none, true, 0⟩

/-- The other principal's project. -/
def c1p2 : Project := ⟨2, "Theirs", "https://b", "k2", none, true, 1⟩

/-- A store with one feedback row under principal 0's project. -/
def c1db : DB := ⟨[0, 1], [c1p1, c1p2], [⟨10, none, none, "mine", some 5, none, some 1, 0⟩]⟩

/-- A feedback row bound to the other principal's project. -/
def c1f : Feedback := ⟨11, none, none, "theirs", some 1, none, some 2, 0⟩

/-- A store whose only feedback row has the out-of-range rating 6 (ingestion
never validates the rating, so such rows are reachable). -/
def c5db : DB :=
  ⟨[0], [⟨1, "P", "https://p", "k", none, true, 0⟩],
   [⟨10, none, none, "m", some 6, none, some 1, 0⟩]⟩

/-- A store whose ratings all lie in 1..5 (one rated row, one unrated). -/
def c5gooddb : DB :=
  ⟨[0], [⟨1, "P", "https://p", "k", none, true, 0⟩],
   [⟨10, none, none, "a", some 5, none, some 1, 0⟩,
    ⟨11, none, none, "b", none, none, some 1, 0⟩]⟩

/-- A store with eight rated rows (ratings 4,5,5,5,5,5,5,5; mean 4.875). -/
def c6db : DB :=
  ⟨[0], [⟨1, "P", "https://p", "k", none, true, 0⟩],
   [⟨10, none, none, "a", some 4, none, some 1, 0⟩,
    ⟨11, none, none, "b", some 5, none, some 1, 0⟩,
    ⟨12, none, none, "c", some 5, none, some 1, 0⟩,
    ⟨13, none, none, "d", some 5, none, some 1, 0⟩,
    ⟨14, none, none, "e", some 5, none, some 1, 0⟩,
    ⟨15, none, none, "f", some 5, none, some 1, 0⟩,
    ⟨16, none, none, "g", some 5, none, some 1, 0⟩,
    ⟨17, none, none, "h", some 5, none, some 1, 0⟩]⟩

/-- A project whose API key is about to be regenerated. -/
def c9p : Project := ⟨1, "Mine", "https://a", "old-key", none, true, 0⟩

/-- A second project of the same principal with a distinct key. -/
def c9q : Project := ⟨2, "Other", "https://b", "other-key", none, true, 0⟩

/-- A store holding both projects. -/
def c9db : DB := ⟨[0], [c9p, c9q], []⟩

/-- An update body that only asks for key regeneration. -/
def c9body : PutBody := ⟨none, none, none, none, some true⟩

/-- C3: a submission whose message is absent or empty fails with the
validation error and leaves the store unchanged, for every credential
(absent, valid, invalid, or of an inactive project) and even under storage
faults, because validation runs before any storage access. -/
theorem empty_message_rejected_regardless_of_credential
    (faults : Faults) (fresh : Fresh) (now : Int) (req : PostRequest) (db : DB)
    (hmsg : falsyMessage req.message = true) :
    feedbackPOST faults fresh now req db = (.validationError, db) := by
  simp [feedbackPOST, hmsg]

/-- Witness for C3: a concrete empty-message submission carrying a
credential is rejected with the validation error. -/
theorem empty_message_rejected_witness :
    falsyMessage (some "") = true ∧
      feedbackPOST noFaults ⟨0, 0, "fk"⟩ 0
          ⟨none, none, some "", none, none, some "any-key"⟩ ⟨[0], [], []⟩
        = (.validationError, ⟨[0], [], []⟩) :=
  ⟨by decide,
    empty_message_rejected_regardless_of_credential noFaults ⟨0, 0, "fk"⟩ 0
      ⟨none, none, some "", none, none, some "any-key"⟩ ⟨[0], [], []⟩ (by decide)⟩

/-- Counterexample for C2 as stated: a submission whose credential resolves
to an existing inactive project but whose message is empty fails with the
validation error, not with the inactive-tenant (forbidden) error. -/
theorem inactive_tenant_error_claim_cex :
    getProjectByApiKey noFaults (some "inactive-key") c2db = some c2proj ∧
      c2proj.isActive = false ∧
      (feedbackPOST noFaults ⟨0, 0, "fk"⟩ 0
          ⟨none, none, some "", none, none, some "inactive-key"⟩ c2db).1
        ≠ .inactiveProject := by
  refine ⟨by decide, by decide, by decide⟩

/-- C2 amended: a submission whose credential resolves to an existing
inactive project always fails, never creates a feedback row and never falls
back to the default tenant; when the message is non-empty the failure is the
inactive-tenant (forbidden) error, and the store is unchanged in every
case. -/
theorem inactive_tenant_rejected_amended
    (faults : Faults) (fresh : Fresh) (now : Int) (req : PostRequest) (db : DB)
    (p : Project)
    (hkey : getProjectByApiKey faults req.apiKey db = some p)
    (hinactive : p.isActive = false) :
    (falsyMessage req.message = false →
        feedbackPOST faults fresh now req db = (.inactiveProject, db)) ∧
      (feedbackPOST faults fresh now req db).2 = db ∧
      (feedbackPOST faults fresh now req db).1.isCreated = false := by
  cases hm : falsyMessage req.message with
  | true => simp [feedbackPOST, hm, PostResult.isCreated]
  | false =>
    simp [feedbackPOST, hm, hkey, hinactive, PostResult.isCreated]

/-- Witness for the amended C2: a concrete non-empty submission with the
inactive project's key gets the inactive-tenant error and an unchanged
store. -/
theorem inactive_tenant_rejected_witness :
    feedbackPOST noFaults ⟨0, 0, "fk"⟩ 0
        ⟨none, none, some "hello", none, none, some "inactive-key"⟩ c2db
      = (.inactiveProject, c2db) :=
  (inactive_tenant_rejected_amended noFaults ⟨0, 0, "fk"⟩ 0
      ⟨none, none, some "hello", none, none, some "inactive-key"⟩ c2db c2proj
      (by decide) (by decide)).1 (by decide)

/-- C7: in a state with zero principals (and referentially intact project
ownership), resolving the default tenant fails with the no-principal error
instead of creating or returning a project. -/
theorem cold_start_without_principal_fails
    (fresh : Fresh) (db : DB)
    (husers : db.users = [])
    (href : ∀ p ∈ db.projects, p.userId ∈ db.users) :
    getDefaultProject noFaults fresh db = .error .noPrincipal := by
  have hproj : db.projects = [] := by
    cases hp : db.projects with
    | nil => rfl
    | cons a l =>
      have hmem := href a (by rw [hp]; exact List.mem_cons_self a l)
      rw [husers] at hmem
      exact absurd hmem (List.not_mem_nil a.userId)
  simp [getDefaultProject, noFaults, hproj, husers]

/-- Witness for C7: the empty store yields the no-principal error. -/
theorem cold_start_witness :
    (⟨[], [], []⟩ : DB).users = [] ∧
      getDefaultProject noFaults ⟨3, 4, "fresh-key"⟩ ⟨[], [], []⟩
        = .error .noPrincipal :=
  ⟨rfl, cold_start_without_principal_fails ⟨3, 4, "fresh-key"⟩ ⟨[], [], []⟩ rfl
    (by intro p hp; simp at hp)⟩

/-- The fault-free request has a fault-free API-key lookup. -/
theorem noFaults_apiKeyLookup : noFaults.apiKeyLookup = false := rfl

/-- The fault-free request has a fault-free default-project resolution. -/
theorem noFaults_defaultProject : noFaults.defaultProject = false := rfl

/-- The fault-free request has a fault-free feedback insert. -/
theorem noFaults_feedbackCreate : noFaults.feedbackCreate = false := rfl

/-- Resolving the default project never touches the feedback collection. -/
theorem getDefaultProject_feedbacks (faults : Faults) (fresh : Fresh) (db : DB)
    (pid : Nat) (db1 : DB)
    (h : getDefaultProject faults fresh db = .ok (pid, db1)) :
    db1.feedbacks = db.feedbacks := by
  unfold getDefaultProject at h
  split at h
  · exact absurd h (by simp)
  · split at h
    · simp only [Except.ok.injEq, Prod.mk.injEq] at h
      rw [← h.2]
    · split at h
      · exact absurd h (by simp)
      · simp only [Except.ok.injEq, Prod.mk.injEq] at h
        rw [← h.2]

/-- C4: a submission with a non-empty message whose credential is absent or
matches no project's API key (exact string equality) is accepted and the
created feedback row is bound to the default tenant's id. -/
theorem no_or_unknown_credential_binds_default_tenant
    (fresh : Fresh) (now : Int) (req : PostRequest) (db : DB) (pid : Nat)
    (db1 : DB)
    (hmsg : falsyMessage req.message = false)
    (hcred : req.apiKey = none ∨
      ∃ k, req.apiKey = some k ∧ ∀ p ∈ db.projects, p.apiKey ≠ k)
    (hdefault : getDefaultProject noFaults fresh db = .ok (pid, db1)) :
    (feedbackPOST noFaults fresh now req db).1.boundProject = some (some pid) := by
  have hlookup : getProjectByApiKey noFaults req.apiKey db = none := by
    rcases hcred with h | ⟨k, hk, hnone⟩
    · rw [h]; rfl
    · rw [hk]
      simp only [getProjectByApiKey, noFaults_apiKeyLookup, Bool.false_eq_true,
        if_false]
      rw [List.find?_eq_none]
      intro p hp
      simpa using hnone p hp
  simp [feedbackPOST, hmsg, hlookup, hdefault, createFeedback,
    noFaults_feedbackCreate, PostResult.boundProject]

/-- Witness for C4: a credential-less submission on a store with no default
project yet gets bound to the freshly created default project (id 42). -/
theorem no_or_unknown_credential_witness :
    falsyMessage (some "great app") = false ∧
      (feedbackPOST noFaults ⟨100, 42, "genkey"⟩ 0
          ⟨none, none, some "great app", none, none, none⟩ ⟨[7], [], []⟩).1.boundProject
        = some (some 42) :=
  ⟨by decide,
    no_or_unknown_credential_binds_default_tenant ⟨100, 42, "genkey"⟩ 0
      ⟨none, none, some "great app", none, none, none⟩ ⟨[7], [], []⟩ 42
      ⟨[7], [⟨42, "Default Project", "https://localhost:3000", "genkey",
        some "Default project for existing feedback entries", true, 7⟩], []⟩
      (by decide) (Or.inl rfl) rfl⟩

/-- C10: a submission with a non-empty message and no resolved credential is
bound to the default project without any isActive check: even when the
default project is inactive the submission is accepted, never rejected with
the inactive-tenant error. -/
theorem default_tenant_inactive_flag_unchecked
    (fresh : Fresh) (now : Int) (req : PostRequest) (db : DB) (d : Project)
    (hmsg : falsyMessage req.message = false)
    (hnokey : getProjectByApiKey noFaults req.apiKey db = none)
    (hdef : db.projects.find? (fun p => p.name == "Default Project") = some d)
    (hinactive : d.isActive = false) :
    (feedbackPOST noFaults fresh now req db).1.boundProject = some (some d.id) ∧
      (feedbackPOST noFaults fresh now req db).1 ≠ .inactiveProject := by
  have hdefault : getDefaultProject noFaults fresh db = .ok (d.id, db) := by
    simp [getDefaultProject, noFaults_defaultProject, hdef]
  refine ⟨?_, ?_⟩
  · simp [feedbackPOST, hmsg, hnokey, hdefault, createFeedback,
      noFaults_feedbackCreate, PostResult.boundProject]
  · simp [feedbackPOST, hmsg, hnokey, hdefault, createFeedback,
      noFaults_feedbackCreate]

/-- Witness for C10: with an inactive default project, a credential-less
submission is still accepted and bound to it. -/
theorem default_tenant_inactive_witness :
    (feedbackPOST noFaults ⟨50, 60, "fk"⟩ 0
        ⟨none, none, some "hi", none, none, none⟩
        ⟨[0], [⟨2, "Default Project", "https://localhost:3000", "dk", none, false, 0⟩], []⟩).1.boundProject
      = some (some 2) :=
  (default_tenant_inactive_flag_unchecked ⟨50, 60, "fk"⟩ 0
      ⟨none, none, some "hi", none, none, none⟩
      ⟨[0], [⟨2, "Default Project", "https://localhost:3000", "dk", none, false, 0⟩], []⟩
      ⟨2, "Default Project", "https://localhost:3000", "dk", none, false, 0⟩
      (by decide) (by decide) (by decide) (by decide)).1

/-- Counterexample for C8 as stated: with the API-key lookup throwing, a
submission whose credential matches the active project "Prod" is not
answered with a server error — it succeeds, silently bound to the default
tenant (project id 2). -/
theorem storage_error_opacity_claim_cex :
    (feedbackPOST ⟨true, false, false⟩ ⟨9, 9, "f"⟩ 0
        ⟨none, none, some "hello", none, none, some "live-key"⟩ c8db).1.boundProject
      = some (some 2) ∧
      (feedbackPOST ⟨true, false, false⟩ ⟨9, 9, "f"⟩ 0
          ⟨none, none, some "hello", none, none, some "live-key"⟩ c8db).1
        ≠ .serverError := by
  refine ⟨by decide, by decide⟩

/-- C8 amended: a storage error in the feedback insert or in default-project
resolution surfaces as a generic server error and never yields a created
row; only the API-key lookup swallows its storage error (degrading to the
default tenant, as the counterexample shows). -/
theorem storage_error_surfacing_amended
    (faults : Faults) (fresh : Fresh) (now : Int) (req : PostRequest) (db : DB)
    (hmsg : falsyMessage req.message = false) :
    (faults.feedbackCreate = true →
        (feedbackPOST faults fresh now req db).1.isCreated = false ∧
          (feedbackPOST faults fresh now req db).2.feedbacks = db.feedbacks) ∧
      (faults.defaultProject = true →
        getProjectByApiKey faults req.apiKey db = none →
        feedbackPOST faults fresh now req db = (.serverError, db)) := by
  constructor
  · intro hc
    simp only [feedbackPOST, hmsg, Bool.false_eq_true, if_false]
    cases hl : getProjectByApiKey faults req.apiKey db with
    | some p =>
      cases hact : p.isActive with
      | false => simp [hact, PostResult.isCreated]
      | true => simp [hact, createFeedback, hc, PostResult.isCreated]
    | none =>
      cases hd : getDefaultProject faults fresh db with
      | error e => simp [PostResult.isCreated]
      | ok pr =>
        obtain ⟨pid, db1⟩ := pr
        have hfb : db1.feedbacks = db.feedbacks :=
          getDefaultProject_feedbacks faults fresh db pid db1 hd
        simp [createFeedback, hc, PostResult.isCreated, hfb]
  · intro hd hl
    simp [feedbackPOST, hmsg, hl, getDefaultProject, hd]

/-- Witness for the amended C8: a fault in default-project resolution makes
a credential-less submission fail with the generic server error. -/
theorem storage_error_surfacing_witness :
    falsyMessage (some "msg") = false ∧
      feedbackPOST ⟨false, true, false⟩ ⟨0, 0, "f"⟩ 0
          ⟨none, none, some "msg", none, none, none⟩ ⟨[0], [], []⟩
        = (.serverError, ⟨[0], [], []⟩) :=
  ⟨by decide,
    (storage_error_surfacing_amended ⟨false, true, false⟩ ⟨0, 0, "f"⟩ 0
        ⟨none, none, some "msg", none, none, none⟩ ⟨[0], [], []⟩ (by decide)).2
      rfl rfl⟩

/-- C1: the unfiltered insights report of principal `uid` only counts
feedback rows whose project is owned by `uid`, and a feedback row bound to a
project of a different principal contributes to none of its fields: adding
such a row leaves the whole report unchanged (given the database invariant
that project ids are unique). -/
theorem insights_scoped_to_owner
    (uid : Nat) (now : Int) (db : DB) (f : Feedback) (p : Project)
    (hnodup : (db.projects.map (fun q => q.id)).Nodup)
    (hp : p ∈ db.projects)
    (hf : f.projectId = some p.id)
    (howner : p.userId ≠ uid) :
    (∀ g ∈ scopedFeedbacks uid none db,
        ∃ q ∈ db.projects, g.projectId = some q.id ∧ q.userId = uid) ∧
      computeInsights uid none now { db with feedbacks := f :: db.feedbacks }
        = computeInsights uid none now db := by
  constructor
  · intro g hg
    have hpred := List.of_mem_filter hg
    unfold inScope at hpred
    cases hq : g.projectId with
    | none => rw [hq] at hpred; simp at hpred
    | some q =>
      rw [hq] at hpred
      have hqmem : q ∈ userProjectIds uid db.projects := by
        simpa [List.contains] using hpred
      obtain ⟨pr, ⟨hprmem, hpruid⟩, hid⟩ := by
        simpa [userProjectIds] using hqmem
      exact ⟨pr, hprmem, by rw [hid], hpruid⟩
  · have hnot : inScope uid none db.projects f = false := by
      unfold inScope
      rw [hf]
      show (userProjectIds uid db.projects).contains p.id = false
      cases hcb : (userProjectIds uid db.projects).contains p.id with
      | false => rfl
      | true =>
        exfalso
        have hcc : p.id ∈ userProjectIds uid db.projects := by
          simpa [List.contains] using hcb
        obtain ⟨pr, ⟨hprmem, hpruid⟩, hid⟩ := by
          simpa [userProjectIds] using hcc
        have heq : pr = p :=
          List.inj_on_of_nodup_map hnodup hprmem hp hid
        rw [heq] at hpruid
        exact howner hpruid
    have hscope : scopedFeedbacks uid none { db with feedbacks := f :: db.feedbacks }
        = scopedFeedbacks uid none db := by
      unfold scopedFeedbacks
      show List.filter _ (f :: db.feedbacks) = _
      rw [List.filter_cons, hnot]
      rfl
    unfold computeInsights
    rw [hscope]

/-- Witness for C1: adding a feedback row of principal 1's project to a
store leaves principal 0's unfiltered report unchanged. -/
theorem insights_scoped_witness :
    c1p2 ∈ c1db.projects ∧ c1p2.userId ≠ 0 ∧
      computeInsights 0 none 0 { c1db with feedbacks := c1f :: c1db.feedbacks }
        = computeInsights 0 none 0 c1db :=
  ⟨by decide, by decide,
    (insights_scoped_to_owner 0 0 c1db c1f c1p2 (by decide) (by decide) rfl
      (by decide)).2⟩

/-- The five per-rating count queries sum to the number of rows whose rating
lies in 1..5 (rows with out-of-range ratings fall into no bucket). -/
theorem sum_buckets (l : List Feedback) :
    (([1, 2, 3, 4, 5] : List Int).map
        (fun r => l.countP (fun f => f.rating == some r))).sum
      = l.countP (fun f => ratingInRange f.rating) := by
  induction l with
  | nil => simp
  | cons a t ih =>
    rcases ha : a.rating with _ | v
    · simp only [List.countP_cons, ha, List.map_cons, List.map_nil,
        List.sum_cons, List.sum_nil, ratingInRange] at ih ⊢
      simp only [show ∀ r : Int, (none == some r) = false from fun r => rfl]
      simp
      omega
    · simp only [List.countP_cons, ha, List.map_cons, List.map_nil,
        List.sum_cons, List.sum_nil, ratingInRange] at ih ⊢
      simp only [beq_iff_eq, Option.some.injEq, Bool.and_eq_true,
        decide_eq_true_eq]
      split_ifs <;> omega

/-- When every stored rating of the list lies in 1..5, the in-range count
coincides with the count of non-null ratings. -/
theorem countP_inRange_eq_rated (l : List Feedback)
    (h : ∀ g ∈ l, g.rating.all (fun v => decide (1 ≤ v) && decide (v ≤ 5)) = true) :
    l.countP (fun f => ratingInRange f.rating)
      = (l.filterMap (fun f => f.rating)).length := by
  induction l with
  | nil => simp
  | cons a t ih =>
    have ha := h a (List.mem_cons_self a t)
    have ht : ∀ g ∈ t, g.rating.all (fun v => decide (1 ≤ v) && decide (v ≤ 5)) = true :=
      fun g hg => h g (List.mem_cons_of_mem a hg)
    have iht := ih ht
    simp only [ratingInRange] at iht
    rcases hr : a.rating with _ | v
    · simp [List.countP_cons, hr, ratingInRange, List.filterMap_cons, iht]
    · rw [hr] at ha
      simp only [Option.all_some] at ha
      simp [List.countP_cons, hr, ratingInRange, List.filterMap_cons, iht, ha]

/-- Counterexample for C5 as stated: with a stored (unvalidated) rating of 6
in scope, the five bucket counts sum to 0 while ratedFeedbackCount is 1, so
the sum does not equal ratedFeedbackCount. -/
theorem rating_distribution_sum_claim_cex :
    (((computeInsights 0 none 0 c5db).ratingDistribution.map
          (fun b => b.count)).sum
        ≠ (computeInsights 0 none 0 c5db).ratedFeedbackCount) ∧
      (computeInsights 0 none 0 c5db).ratedFeedbackCount = 1 ∧
      ((computeInsights 0 none 0 c5db).ratingDistribution.map
          (fun b => b.count)).sum = 0 := by
  refine ⟨by decide, by decide, by decide⟩

/-- C5 amended: ratingDistribution always has exactly five entries, one per
rating 1..5 in order (zero counts included); their counts sum to the number
of in-scope rows whose rating lies in 1..5, which equals ratedFeedbackCount
whenever every stored rating is in range (ingestion does not enforce the
1..5 domain, so out-of-range ratings are counted by ratedFeedbackCount but
by no bucket). -/
theorem rating_distribution_five_buckets_amended
    (uid : Nat) (flt : Option Nat) (now : Int) (db : DB) :
    ((computeInsights uid flt now db).ratingDistribution.map (fun b => b.rating)
        = [1, 2, 3, 4, 5]) ∧
      (((computeInsights uid flt now db).ratingDistribution.map
            (fun b => b.count)).sum
        = (scopedFeedbacks uid flt db).countP (fun f => ratingInRange f.rating)) ∧
      ((∀ g ∈ scopedFeedbacks uid flt db,
          g.rating.all (fun v => decide (1 ≤ v) && decide (v ≤ 5)) = true) →
        (((computeInsights uid flt now db).ratingDistribution.map
              (fun b => b.count)).sum
          = (computeInsights uid flt now db).ratedFeedbackCount)) := by
  refine ⟨rfl, ?_, ?_⟩
  · show (([1, 2, 3, 4, 5] : List Int).map
        (fun r => (scopedFeedbacks uid flt db).countP (fun f => f.rating == some r))).sum = _
    exact sum_buckets (scopedFeedbacks uid flt db)
  · intro h
    show (([1, 2, 3, 4, 5] : List Int).map
        (fun r => (scopedFeedbacks uid flt db).countP (fun f => f.rating == some r))).sum = _
    rw [sum_buckets (scopedFeedbacks uid flt db)]
    exact countP_inRange_eq_rated (scopedFeedbacks uid flt db) h

/-- Witness for the amended C5: on a store whose ratings are all in range,
the bucket counts sum to ratedFeedbackCount. -/
theorem rating_distribution_witness :
    ((computeInsights 0 none 0 c5gooddb).ratingDistribution.map
          (fun b => b.count)).sum
      = (computeInsights 0 none 0 c5gooddb).ratedFeedbackCount :=
  (rating_distribution_five_buckets_amended 0 none 0 c5gooddb).2.2 (by decide)

/-- Adding Number.EPSILON before scaling never moves the rounded value, as
long as the rating count stays below 2 ^ 43: the scaled mean plus one half
is a fraction with denominator 2 n, so its distance to the next integer is
at least 1 / (2 n), which exceeds 100 * Number.EPSILON. -/
theorem floor_eps_shift (s : ℤ) (n : ℕ) (hn : 0 < n) (hle : n ≤ 2 ^ 43) :
    ⌊((s : ℚ) / (n : ℚ) + numberEPSILON) * 100 + 1 / 2⌋
      = ⌊(s : ℚ) / (n : ℚ) * 100 + 1 / 2⌋ := by
  have hnq : (0 : ℚ) < (n : ℚ) := by exact_mod_cast hn
  set x : ℚ := (s : ℚ) / (n : ℚ) * 100 + 1 / 2 with hx
  have hrw : ((s : ℚ) / (n : ℚ) + numberEPSILON) * 100 + 1 / 2
      = x + 100 * numberEPSILON := by rw [hx]; ring
  rw [hrw]
  have heps : (0 : ℚ) < 100 * numberEPSILON := by norm_num [numberEPSILON]
  have h2n : (0 : ℚ) < 2 * (n : ℚ) := by linarith
  have hxmul : x * (2 * (n : ℚ)) = 200 * (s : ℚ) + (n : ℚ) := by
    rw [hx]; field_simp; ring
  have hlt : x < (⌊x⌋ : ℚ) + 1 := Int.lt_floor_add_one x
  have hint : (200 * (s : ℚ) + (n : ℚ)) < ((⌊x⌋ : ℚ) + 1) * (2 * (n : ℚ)) := by
    rw [← hxmul]
    exact mul_lt_mul_of_pos_right hlt h2n
  have hintZ : 200 * s + (n : ℤ) < (⌊x⌋ + 1) * (2 * (n : ℤ)) := by
    exact_mod_cast hint
  have hsuccQ : 200 * (s : ℚ) + (n : ℚ) + 1 ≤ ((⌊x⌋ : ℚ) + 1) * (2 * (n : ℚ)) := by
    exact_mod_cast hintZ
  have hA : x * (2 * (n : ℚ)) + 1 ≤ ((⌊x⌋ : ℚ) + 1) * (2 * (n : ℚ)) := by
    rw [hxmul]; exact hsuccQ
  have hB : 100 * numberEPSILON * (2 * (n : ℚ)) < 1 := by
    have hn43 : (n : ℚ) ≤ 2 ^ 43 := by exact_mod_cast hle
    have hval : 100 * numberEPSILON * (2 * (n : ℚ)) = 200 * (n : ℚ) / 2 ^ 52 := by
      simp only [numberEPSILON]; ring
    rw [hval, div_lt_one (by positivity)]
    calc 200 * (n : ℚ) ≤ 200 * 2 ^ 43 := by linarith
      _ < 2 ^ 52 := by norm_num
  have hC : (x + 100 * numberEPSILON) * (2 * (n : ℚ))
      < ((⌊x⌋ : ℚ) + 1) * (2 * (n : ℚ)) := by
    have hexp : (x + 100 * numberEPSILON) * (2 * (n : ℚ))
        = x * (2 * (n : ℚ)) + 100 * numberEPSILON * (2 * (n : ℚ)) := by ring
    rw [hexp]; linarith
  have hD : x + 100 * numberEPSILON < (⌊x⌋ : ℚ) + 1 :=
    (mul_lt_mul_right h2n).mp hC
  have hE : (⌊x⌋ : ℚ) ≤ x + 100 * numberEPSILON :=
    le_trans (Int.floor_le x) (by linarith)
  exact Int.floor_eq_iff.mpr ⟨hE, hD⟩

/-- Rounding the zero mean gives zero. -/
theorem mathRound_zero_scaled : mathRound ((0 : ℚ) * 100) = 0 := by
  unfold mathRound
  apply Int.floor_eq_iff.mpr
  constructor <;> norm_num

/-- Rounding Number.EPSILON itself still gives zero. -/
theorem mathRound_eps_scaled : mathRound (((0 : ℚ) + numberEPSILON) * 100) = 0 := by
  unfold mathRound
  apply Int.floor_eq_iff.mpr
  constructor <;> norm_num [numberEPSILON]

/-- The output of averageRatingOut agrees with the mean rounded half-up at
two decimals whenever the rating count is at most 2 ^ 43. -/
theorem averageRatingOut_eq_rounded_mean (l : List Int)
    (hl : l.length ≤ 2 ^ 43) :
    averageRatingOut l = (mathRound (meanOf l * 100) : ℚ) / 100 := by
  rcases Nat.eq_zero_or_pos l.length with h0 | hpos
  · obtain rfl : l = [] := List.length_eq_zero.mp h0
    show (mathRound (((0 : ℚ) + numberEPSILON) * 100) : ℚ) / 100
      = (mathRound ((0 : ℚ) * 100) : ℚ) / 100
    rw [mathRound_zero_scaled, mathRound_eps_scaled]
  · unfold averageRatingOut meanOf mathRound
    have hne : ¬l.length = 0 := Nat.pos_iff_ne_zero.mp hpos
    simp only [if_neg hne]
    have hshift := floor_eps_shift l.sum l.length hpos hl
    simp only [hshift]

/-- C6: averageRating is the arithmetic mean of the non-null in-scope
ratings, scaled by 100, rounded half-up to an integer (standard rounding,
not truncation) and divided by 100; it is 0 when no rated rows exist.  The
2 ^ 43 cardinality bound is where the source's Number.EPSILON correction
could start to matter in exact arithmetic. -/
theorem average_rating_standard_rounding
    (uid : Nat) (flt : Option Nat) (now : Int) (db : DB)
    (hcard : ((scopedFeedbacks uid flt db).filterMap (fun f => f.rating)).length
      ≤ 2 ^ 43) :
    ((computeInsights uid flt now db).averageRating
        = (mathRound (meanOf ((scopedFeedbacks uid flt db).filterMap
            (fun f => f.rating)) * 100) : ℚ) / 100) ∧
      (((scopedFeedbacks uid flt db).filterMap (fun f => f.rating)).length = 0 →
        (computeInsights uid flt now db).averageRating = 0) := by
  have hmain : (computeInsights uid flt now db).averageRating
      = (mathRound (meanOf ((scopedFeedbacks uid flt db).filterMap
          (fun f => f.rating)) * 100) : ℚ) / 100 := by
    show averageRatingOut ((scopedFeedbacks uid flt db).filterMap (fun f => f.rating)) = _
    exact averageRatingOut_eq_rounded_mean _ hcard
  refine ⟨hmain, fun h0 => ?_⟩
  rw [hmain]
  have hm : meanOf ((scopedFeedbacks uid flt db).filterMap (fun f => f.rating)) = 0 := by
    unfold meanOf
    rw [if_pos h0]
  rw [hm, mathRound_zero_scaled]
  norm_num

/-- Witness for C6: eight ratings with mean 4.875 round to 4.88 (truncation
would give 4.87). -/
theorem average_rating_witness :
    (computeInsights 0 none 0 c6db).averageRating = 488 / 100 ∧
      (computeInsights 0 none 0 c6db).averageRating ≠ 487 / 100 := by
  have h := (average_rating_standard_rounding 0 none 0 c6db (by decide)).1
  have hs : (scopedFeedbacks 0 none c6db).filterMap (fun f => f.rating)
      = [4, 5, 5, 5, 5, 5, 5, 5] := by decide
  have hm : meanOf [4, 5, 5, 5, 5, 5, 5, 5] = 39 / 8 := by
    unfold meanOf
    norm_num
  have hval : (39 : ℚ) / 8 * 100 + 1 / 2 = 488 := by norm_num
  have hfl : mathRound ((39 : ℚ) / 8 * 100) = 488 := by
    unfold mathRound
    rw [hval]
    apply Int.floor_eq_iff.mpr
    constructor <;> norm_num
  rw [h, hs, hm, hfl]
  norm_num

/-- Mapping an id-preserving update over the project list does not change
which row a find?-by-id returns; it returns that row's image. -/
theorem find?_map_id_preserved (idv : Nat) (upd : Project → Project)
    (hid : ∀ p, (upd p).id = p.id) (l : List Project) (p0 : Project)
    (h : l.find? (fun p => p.id == idv) = some p0) :
    (l.map upd).find? (fun p => p.id == idv) = some (upd p0) := by
  induction l with
  | nil => simp at h
  | cons a t ih =>
    by_cases ha : (a.id == idv) = true
    · rw [@List.find?_cons_of_pos _ (fun p => p.id == idv) a t ha] at h
      have hup : ((upd a).id == idv) = true := by rw [hid a]; exact ha
      rw [List.map_cons,
        @List.find?_cons_of_pos _ (fun p => p.id == idv) (upd a) (t.map upd) hup]
      simp only [Option.some.injEq] at h
      rw [h]
    · rw [@List.find?_cons_of_neg _ (fun p => p.id == idv) a t ha] at h
      have hup : ¬((upd a).id == idv) = true := by rw [hid a]; exact ha
      rw [List.map_cons,
        @List.find?_cons_of_neg _ (fun p => p.id == idv) (upd a) (t.map upd) hup]
      exact ih h

/-- C9: a project update leaves every API key in the store unchanged unless
the body carries regenerateApiKey = true; when it does (and the request is
authorized for an existing project), the target's key becomes the fresh key
and the old key no longer matches any project (given that API keys were
unique and the fresh key is unused). -/
theorem api_key_immutable_unless_regenerated
    (uid? : Option Nat) (id : Nat) (body : PutBody) (freshKey : String)
    (db : DB) (p0 : Project)
    (hfind : db.projects.find? (fun p => p.id == id) = some p0)
    (hfresh : ∀ q ∈ db.projects, q.apiKey ≠ freshKey)
    (hunique : ∀ q ∈ db.projects, q.apiKey = p0.apiKey → q = p0) :
    (body.regenerateApiKey ≠ some true →
        (projectPUT uid? id body freshKey db).2.projects.map (fun p => p.apiKey)
          = db.projects.map (fun p => p.apiKey)) ∧
      (body.regenerateApiKey = some true → uid? = some p0.userId →
        ((projectPUT uid? id body freshKey db).2.projects.filter
            (fun q => q.apiKey == p0.apiKey) = [] ∧
          ((projectPUT uid? id body freshKey db).2.projects.find?
              (fun q => q.id == id)).map (fun q => q.apiKey) = some freshKey)) := by
  have hp0mem : p0 ∈ db.projects := List.mem_of_find?_eq_some hfind
  have hp0id := List.find?_some hfind
  have hidpres : ∀ p : Project,
      ((if p.id == id then applyUpdate body freshKey p else p)).id = p.id := by
    intro p
    by_cases h : (p.id == id) = true <;> simp [h, applyUpdate]
  constructor
  · intro hreg
    have hkey : ∀ p : Project,
        (if p.id == id then applyUpdate body freshKey p else p).apiKey = p.apiKey := by
      intro p
      by_cases h : (p.id == id) = true
      · simp only [h, if_true]
        simp [applyUpdate, hreg]
      · simp [h]
    cases uid? with
    | none => rfl
    | some uid =>
      unfold projectPUT
      rw [hfind]
      by_cases howner : (p0.userId != uid) = true
      · simp [howner]
      · simp only [Bool.not_eq_true] at howner
        simp only [howner, Bool.false_eq_true, if_false]
        by_cases hemp : emptyUpdate body = true
        · simp [hemp]
        · simp only [Bool.not_eq_true] at hemp
          simp only [hemp, Bool.false_eq_true, if_false]
          rw [List.map_map]
          apply List.map_congr_left
          intro p _
          exact hkey p
  · intro hreg huid
    rw [huid]
    have hemp : emptyUpdate body = false := by
      simp [emptyUpdate, hreg]
    have hput : (projectPUT (some p0.userId) id body freshKey db).2.projects
        = db.projects.map (fun p =>
            if p.id == id then applyUpdate body freshKey p else p) := by
      simp [projectPUT, hfind, hemp]
    rw [hput]
    constructor
    · rw [List.filter_eq_nil_iff]
      intro q hq
      obtain ⟨q0, hq0mem, rfl⟩ := List.mem_map.mp hq
      by_cases hq0id : (q0.id == id) = true
      · simp only [hq0id, if_true]
        have : (applyUpdate body freshKey q0).apiKey = freshKey := by
          simp [applyUpdate, hreg]
        rw [this]
        simp only [beq_iff_eq]
        intro hcontra
        exact hfresh p0 hp0mem hcontra.symm
      · simp only [hq0id, Bool.false_eq_true, if_false]
        simp only [beq_iff_eq]
        intro hcontra
        have heq : q0 = p0 := hunique q0 hq0mem hcontra
        rw [heq] at hq0id
        exact hq0id hp0id
    · have hfm := find?_map_id_preserved id
        (fun p => if p.id == id then applyUpdate body freshKey p else p)
        hidpres db.projects p0 hfind
      rw [hfm]
      simp [hp0id, applyUpdate, hreg]

/-- Witness for C9: regenerating project 1's key replaces "old-key" with
"new-key" and no project matches "old-key" afterwards. -/
theorem api_key_regeneration_witness :
    ((projectPUT (some 0) 1 c9body "new-key" c9db).2.projects.filter
        (fun q => q.apiKey == "old-key") = []) ∧
      ((projectPUT (some 0) 1 c9body "new-key" c9db).2.projects.find?
          (fun q => q.id == 1)).map (fun q => q.apiKey) = some "new-key" :=
  (api_key_immutable_unless_regenerated (some 0) 1 c9body "new-key" c9db c9p
      (by decide) (by decide) (by decide)).2 rfl rfl

end FeedbackCore
